import Mathlib

/-!
Verification of the text-into-voice-translator application core.

The embedding covers the session/history state machine of `src/App.tsx`
(`saveToHistory`, `handleTranslateAndSpeak`, `speakText`, `clearHistory`,
the history-loading mount effect) and the translation service shortcut of
`src/services/geminiService.ts` (`translateText`).  External collaborators
— the network model calls, the speech synthesis call, `JSON.stringify` /
`JSON.parse` of the host runtime — are passed in as function parameters, and
the model counts how often each network collaborator is invoked.  The audio
utility module `src/utils/audio.ts` (`decode`, `decodeAudioData`) is imported
by `App.tsx` but its source is not part of the provided tree; those two
operations are modelled from the specification of the AudioDecodePipeline.
-/

/-- Embeds `TranslationResult` from `src/types.ts`: one history record. -/
structure TranslationResult where
  originalText : String
  translatedText : String
  sourceLang : String
  targetLang : String
  timestamp : Nat
deriving DecidableEq

/-- Error taxonomy of the AudioDecodePipeline (spec section 4.1). -/
inductive AudioError where
  | decodeError
  | emptyAudioError
deriving DecidableEq

/-- Human-readable message carried by an `AudioError` when it is surfaced. -/
def AudioError.message : AudioError → String
  | .decodeError => "DecodeError"
  | .emptyAudioError => "EmptyAudioError"

/-- Modelled from the spec: the decoded audio buffer produced by
`decodeAudioData` of `src/utils/audio.ts` (file absent from the tree).
`channels` holds one independent sample plane per channel; samples are the
PCM values normalized by 32768, represented exactly as rationals. -/
structure AudioBuffer where
  sampleRate : Nat
  channels : List (List Rat)
deriving DecidableEq

/-- Value of a base64 alphabet character, `none` outside the alphabet. -/
def base64CharValue (c : Char) : Option Nat :=
  if 'A' ≤ c ∧ c ≤ 'Z' then some (c.toNat - 65)
  else if 'a' ≤ c ∧ c ≤ 'z' then some (c.toNat - 97 + 26)
  else if '0' ≤ c ∧ c ≤ '9' then some (c.toNat - 48 + 52)
  else if c = '+' then some 62
  else if c = '/' then some 63
  else none

/-- Modelled from the spec: the quartet-by-quartet body of
`decodeBase64ToBytes`; `none` on a character outside the alphabet, on a
length that is not a multiple of four, or on padding anywhere but the end. -/
def base64DecodeChunks : List Char → Option (List Nat)
  | [] => some []
  | a :: b :: c :: d :: rest => do
      let va ← base64CharValue a
      let vb ← base64CharValue b
      if c = '=' ∧ d = '=' ∧ rest = [] then
        some [va * 4 + vb / 16]
      else do
        let vc ← base64CharValue c
        if d = '=' ∧ rest = [] then
          some [va * 4 + vb / 16, vb % 16 * 16 + vc / 4]
        else do
          let vd ← base64CharValue d
          let tail ← base64DecodeChunks rest
          some ([va * 4 + vb / 16, vb % 16 * 16 + vc / 4, vc % 4 * 64 + vd] ++ tail)
  | _ => none

/-- Modelled from the spec: `decodeBase64ToBytes` of the AudioDecodePipeline
(the `decode` helper of `src/utils/audio.ts`, absent from the tree): a pure
transformation failing with `DecodeError` when the string contains characters
outside the base64 alphabet or has invalid padding. -/
def decodeBase64ToBytes (payload : String) : Except AudioError (List Nat) :=
  match base64DecodeChunks payload.data with
  | some bytes => .ok bytes
  | none => .error .decodeError

/-- Signed 16-bit little-endian sample assembled from two bytes. -/
def int16FromBytes (lo hi : Nat) : Int :=
  let u := lo % 256 + hi % 256 * 256
  if u < 32768 then (u : Int) else (u : Int) - 65536

/-- Modelled from the spec: `bytesToAudioBuffer` of the AudioDecodePipeline
(the `decodeAudioData` helper of `src/utils/audio.ts`, absent from the tree).
The byte sequence is read as interleaved signed 16-bit little-endian PCM,
frame count = byteLength / 2 / channelCount with trailing partial-frame
bytes silently ignored, each sample normalized by dividing by 32768; fails
with `EmptyAudioError` when fewer than two bytes are available. -/
def bytesToAudioBuffer (bytes : List Nat) (sampleRate channelCount : Nat) :
    Except AudioError AudioBuffer :=
  if bytes.length < 2 then .error .emptyAudioError
  else
    let frameCount := bytes.length / 2 / channelCount
    let sampleAt : Nat → Rat := fun i =>
      (int16FromBytes (bytes.getD (2 * i) 0) (bytes.getD (2 * i + 1) 0) : Rat) / 32768
    .ok { sampleRate := sampleRate
          channels := (List.range channelCount).map fun ch =>
            (List.range frameCount).map fun f => sampleAt (f * channelCount + ch) }

/-- Embeds the audio source-node bookkeeping of `src/App.tsx`:
`active` lists the identifiers of source nodes currently connected to the
output and playing; `ref` is `sourceNodeRef.current`; `nextId` supplies a
fresh identifier for the next node created by `ctx.createBufferSource()`. -/
structure PlaybackState where
  active : List Nat
  ref : Option Nat
  nextId : Nat
deriving DecidableEq

/-- Embeds lines 93-103 of `src/App.tsx` (inside `speakText`): stop the
source node held by `sourceNodeRef` if any, then create a fresh source,
connect it, start it, and point `sourceNodeRef` at it. -/
def startPlayback (ps : PlaybackState) : PlaybackState :=
  let stopped :=
    match ps.ref with
    | some sid => ps.active.erase sid
    | none => ps.active
  { active := ps.nextId :: stopped, ref := some ps.nextId, nextId := ps.nextId + 1 }

/-- Invariant tying the bookkeeping together: every playing source node is
the one held by `sourceNodeRef`, and node identifiers below `nextId` are the
only ones ever handed out. -/
def PlaybackInv (ps : PlaybackState) : Prop :=
  (ps.active = [] ∨ ∃ s, ps.ref = some s ∧ ps.active = [s]) ∧
  ∀ s ∈ ps.active, s < ps.nextId

/-- Embeds the React state of the `App` component of `src/App.tsx`, together
with the model bookkeeping: `storage` is the value stored under the
`vox_history` key of `localStorage` (`none` when absent), `audioCtxCreated`
records the lazily created `AudioContext`, `translateCalls` and `synthCalls`
count the requests issued to the two network collaborators, and `now` stands
for `Date.now()`. -/
structure AppState where
  inputText : String
  translatedText : String
  sourceLang : String
  targetLang : String
  selectedVoice : String
  isLoading : Bool
  isPlaying : Bool
  history : List TranslationResult
  error : Option String
  storage : Option String
  audioCtxCreated : Bool
  playback : PlaybackState
  translateCalls : Nat
  synthCalls : Nat
  now : Nat
deriving DecidableEq

/-- External collaborators consumed as black boxes: `net` is the hosted
translation model behind `ai.models.generateContent` in
`src/services/geminiService.ts` (`.error` for any network or model failure),
`tts` is the speech-synthesis call of `generateSpeech` returning the base64
audio payload, and `stringify` is the host runtime's `JSON.stringify` on a
record list. -/
structure Collab where
  net : String → String → String → Except String String
  tts : String → String → Except String String
  stringify : List TranslationResult → String

/-- Embeds the submit guard `!inputText.trim()` of `src/App.tsx` line 45:
the whitespace-trimmed text is empty exactly when every character of the
text is whitespace. -/
def isBlankText (s : String) : Bool := s.data.all Char.isWhitespace

/-- Embeds `translateText` from `src/services/geminiService.ts`: the
identity short-circuit when source and target language coincide, otherwise
one request to the hosted model.  The second component counts the network
requests issued. -/
def translateTextM (net : String → String → String → Except String String)
    (text sourceLang targetLang : String) : Except String String × Nat :=
  if sourceLang = targetLang then (.ok text, 0)
  else (net text sourceLang targetLang, 1)

/-- Embeds `saveToHistory` from `src/App.tsx` lines 38-42: front-insert the
new record, keep the first ten, store the list, and rewrite the persisted
copy under the `vox_history` key. -/
def saveToHistory (stringify : List TranslationResult → String)
    (result : TranslationResult) (st : AppState) : AppState :=
  let newHistory := (result :: st.history).take 10
  { st with history := newHistory, storage := some (stringify newHistory) }

/-- Folds a whole sequence of appends through `saveToHistory`. -/
def appendAll (stringify : List TranslationResult → String)
    (rs : List TranslationResult) (st : AppState) : AppState :=
  rs.foldl (fun s r => saveToHistory stringify r s) st

/-- Embeds `speakText` from `src/App.tsx` lines 72-109: return at once on
empty text, set the playing flag, request synthesis, lazily create the audio
context, decode the payload, preempt the current source node and start the
new one; any failure inside the `try` sets the error message and clears the
playing flag. -/
def speakText (ext : Collab) (text : String) (st : AppState) : AppState :=
  if text = "" then st
  else
    let st1 := { st with isPlaying := true }
    match ext.tts text st1.selectedVoice with
    | .error msg =>
        { st1 with synthCalls := st1.synthCalls + 1
                   error := some ("Speech synthesis failed: " ++ msg)
                   isPlaying := false }
    | .ok base64Audio =>
        let st2 := { st1 with synthCalls := st1.synthCalls + 1, audioCtxCreated := true }
        match decodeBase64ToBytes base64Audio with
        | .error e =>
            { st2 with error := some ("Speech synthesis failed: " ++ e.message)
                       isPlaying := false }
        | .ok bytes =>
            match bytesToAudioBuffer bytes 24000 1 with
            | .error e =>
                { st2 with error := some ("Speech synthesis failed: " ++ e.message)
                           isPlaying := false }
            | .ok _ => { st2 with playback := startPlayback st2.playback }

/-- Embeds `handleTranslateAndSpeak` from `src/App.tsx` lines 44-70: guard
against whitespace-only input, set loading, translate, record the result in
history, speak it; a thrown translation error is caught and surfaced (with
the generic fallback when the message is empty), and loading is cleared in
the `finally`. -/
def handleTranslateAndSpeak (ext : Collab) (st : AppState) : AppState :=
  if isBlankText st.inputText then st
  else
    let res := translateTextM ext.net st.inputText st.sourceLang st.targetLang
    let st1 := { st with isLoading := true, error := none
                         translateCalls := st.translateCalls + res.2 }
    match res.1 with
    | .error msg =>
        { st1 with error := some (if msg = "" then "An unexpected error occurred" else msg)
                   isLoading := false }
    | .ok translation =>
        let st2 := { st1 with translatedText := translation }
        let st3 := saveToHistory ext.stringify
          { originalText := st2.inputText
            translatedText := translation
            sourceLang := st2.sourceLang
            targetLang := st2.targetLang
            timestamp := st2.now } st2
        let st4 := speakText ext translation st3
        { st4 with isLoading := false }

/-- Embeds `clearHistory` from `src/App.tsx` lines 111-114: empty the
in-memory history and remove the persisted copy. -/
def clearHistory (st : AppState) : AppState :=
  { st with history := [], storage := none }

/-- Embeds the `useState` initial values of the `App` component of
`src/App.tsx`, with the surviving persisted storage passed in. -/
def initAppState (storage : Option String) : AppState :=
  { inputText := ""
    translatedText := ""
    sourceLang := "en"
    targetLang := "es"
    selectedVoice := "Zephyr"
    isLoading := false
    isPlaying := false
    history := []
    error := none
    storage := storage
    audioCtxCreated := false
    playback := { active := [], ref := none, nextId := 0 }
    translateCalls := 0
    synthCalls := 0
    now := 0 }

/-- Embeds the mount effect of `src/App.tsx` lines 26-36: read the
`vox_history` key, and when a value is present set the history to its parse;
a parse failure is caught and only logged.  `parse` stands for the host
runtime's `JSON.parse` followed by the schema read, `none` modelling a
thrown parse error. -/
def loadHistoryEffect (parse : String → Option (List TranslationResult))
    (st : AppState) : AppState :=
  match st.storage with
  | none => st
  | some saved =>
      match parse saved with
      | some h => { st with history := h }
      | none => st

/-- Sample collaborator set whose translation network call always fails. -/
def collabSample : Collab :=
  { net := fun _ _ _ => .error "network unreachable"
    tts := fun _ _ => .ok ""
    stringify := fun _ => "[]" }

/-- Fresh state with the non-blank input text "hi". -/
def stBusy : AppState := { initAppState none with inputText := "hi" }

/-- Fresh state whose input text is whitespace only. -/
def stBlank : AppState := { initAppState none with inputText := "   " }

/-- C1: appending a record through `saveToHistory`, after any prior sequence
of appends, leaves the history with at most ten entries, places the new
record at index 0, keeps exactly the first ten entries of the front-inserted
list (dropping any overflow from the tail), and rewrites the persisted copy
to exactly the stored list. -/
theorem C1_history_cap_front_insert_persist
    (stringify : List TranslationResult → String) (st : AppState)
    (rs : List TranslationResult) (r : TranslationResult) :
    (saveToHistory stringify r (appendAll stringify rs st)).history.length ≤ 10 ∧
    (saveToHistory stringify r (appendAll stringify rs st)).history.head? = some r ∧
    (saveToHistory stringify r (appendAll stringify rs st)).history
      = (r :: (appendAll stringify rs st).history).take 10 ∧
    (saveToHistory stringify r (appendAll stringify rs st)).storage
      = some (stringify
          ((saveToHistory stringify r (appendAll stringify rs st)).history)) := by
  refine ⟨?_, ?_, ?_, ?_⟩
  · simp [saveToHistory]
  · rfl
  · rfl
  · rfl

/-- C2: starting a new playback session while the bookkeeping invariant
holds stops the prior source node first, so that afterwards exactly the
fresh node is active, no previously active node remains active, and the
invariant is preserved. -/
theorem C2_single_active_playback (ps : PlaybackState) (h : PlaybackInv ps) :
    (startPlayback ps).active = [ps.nextId] ∧
    (∀ s ∈ ps.active, s ∉ (startPlayback ps).active) ∧
    PlaybackInv (startPlayback ps) := by
  obtain ⟨hcase, hfresh⟩ := h
  have hact : (startPlayback ps).active = [ps.nextId] := by
    rcases hcase with h0 | ⟨s, href, hs⟩
    · cases href : ps.ref <;> simp [startPlayback, href, h0]
    · simp [startPlayback, href, hs]
  refine ⟨hact, ?_, ?_, ?_⟩
  · intro s hs hmem
    rw [hact] at hmem
    have hlt := hfresh s hs
    simp at hmem
    omega
  · exact Or.inr ⟨ps.nextId, rfl, hact⟩
  · intro s hs
    rw [hact] at hs
    simp at hs
    subst hs
    show ps.nextId < (startPlayback ps).nextId
    simp [startPlayback]

/-- Witness for C2 at a concrete state with node 5 active and referenced. -/
theorem C2_single_active_playback_witness :
    (startPlayback { active := [5], ref := some 5, nextId := 6 }).active = [6] :=
  (C2_single_active_playback { active := [5], ref := some 5, nextId := 6 }
    ⟨Or.inr ⟨5, rfl, rfl⟩, by decide⟩).1

/-- C3: translating with equal source and target language returns the input
unchanged and issues zero network requests, in particular on the input
"Hello" with both languages "en". -/
theorem C3_identity_short_circuit
    (net : String → String → String → Except String String) (text lang : String) :
    translateTextM net text lang lang = (Except.ok text, 0) ∧
    translateTextM net "Hello" "en" "en" = (Except.ok "Hello", 0) := by
  constructor <;> simp [translateTextM]

/-- C4: when the translation call fails on a non-blank submission, the
history and its persisted copy are unchanged, the synthesis collaborator
receives zero calls, playback and the playing flag are untouched, loading is
cleared, and the session carries the surfaced error message. -/
theorem C4_translation_failure_no_history_no_synth
    (ext : Collab) (st : AppState) (msg : String)
    (htrim : isBlankText st.inputText = false)
    (h : (translateTextM ext.net st.inputText st.sourceLang st.targetLang).1
      = .error msg) :
    (handleTranslateAndSpeak ext st).history = st.history ∧
    (handleTranslateAndSpeak ext st).storage = st.storage ∧
    (handleTranslateAndSpeak ext st).synthCalls = st.synthCalls ∧
    (handleTranslateAndSpeak ext st).isPlaying = st.isPlaying ∧
    (handleTranslateAndSpeak ext st).playback = st.playback ∧
    (handleTranslateAndSpeak ext st).isLoading = false ∧
    (handleTranslateAndSpeak ext st).error
      = some (if msg = "" then "An unexpected error occurred" else msg) := by
  simp [handleTranslateAndSpeak, htrim, h]

/-- Witness for C4 on a concrete failing collaborator and submission. -/
theorem C4_translation_failure_no_history_no_synth_witness :
    (handleTranslateAndSpeak collabSample stBusy).history = stBusy.history ∧
    (handleTranslateAndSpeak collabSample stBusy).storage = stBusy.storage ∧
    (handleTranslateAndSpeak collabSample stBusy).synthCalls = stBusy.synthCalls ∧
    (handleTranslateAndSpeak collabSample stBusy).isPlaying = stBusy.isPlaying ∧
    (handleTranslateAndSpeak collabSample stBusy).playback = stBusy.playback ∧
    (handleTranslateAndSpeak collabSample stBusy).isLoading = false ∧
    (handleTranslateAndSpeak collabSample stBusy).error = some "network unreachable" :=
  C4_translation_failure_no_history_no_synth collabSample stBusy
    "network unreachable" (by decide) rfl

/-- C5: for any byte sequence and channel count at least one, the decoded
buffer has one plane per channel, each with exactly byteLength / 2 /
channelCount frames (trailing partial-frame bytes ignored); fewer than two
bytes consistently yield the defined `EmptyAudioError`. -/
theorem C5_frames_per_channel (bytes : List Nat) (sampleRate c : Nat)
    (_hc : 1 ≤ c) :
    (2 ≤ bytes.length →
      ∃ buf, bytesToAudioBuffer bytes sampleRate c = .ok buf ∧
        buf.channels.length = c ∧
        ∀ plane ∈ buf.channels, plane.length = bytes.length / 2 / c) ∧
    (bytes.length < 2 →
      bytesToAudioBuffer bytes sampleRate c = .error .emptyAudioError) := by
  constructor
  · intro h2
    have hnot : ¬ bytes.length < 2 := by omega
    simp only [bytesToAudioBuffer, if_neg hnot]
    refine ⟨_, rfl, ?_, ?_⟩
    · simp
    · intro plane hplane
      simp only [List.mem_map, List.mem_range] at hplane
      obtain ⟨ch, _, hpl⟩ := hplane
      simp [hpl.symm]
  · intro h2
    simp [bytesToAudioBuffer, h2]

/-- Witness for C5 on a concrete four-byte mono payload. -/
theorem C5_frames_per_channel_witness :
    ∃ buf, bytesToAudioBuffer [0, 128, 255, 127] 24000 1 = .ok buf ∧
      buf.channels.length = 1 ∧
      ∀ plane ∈ buf.channels, plane.length = 2 :=
  (C5_frames_per_channel [0, 128, 255, 127] 24000 1 (by decide)).1 (by decide)

/-- C6: submitting input that is empty after trimming performs no state
transition at all: the state, its history, and the collaborator call counts
are exactly as before. -/
theorem C6_blank_submit_noop (ext : Collab) (st : AppState)
    (h : isBlankText st.inputText = true) :
    handleTranslateAndSpeak ext st = st := by
  simp [handleTranslateAndSpeak, h]

/-- Witness for C6 on a whitespace-only input. -/
theorem C6_blank_submit_noop_witness :
    handleTranslateAndSpeak collabSample stBlank = stBlank :=
  C6_blank_submit_noop collabSample stBlank (by decide)

/-- C7: clearing the history empties the in-memory log and removes the
persisted copy, so a restart reloads an empty log; all other session state —
input, displayed translation, flags, playback — is untouched, making the
operation available from any state. -/
theorem C7_clear_history_then_restart_empty (st : AppState)
    (parse : String → Option (List TranslationResult)) :
    (clearHistory st).history = [] ∧
    (clearHistory st).storage = none ∧
    (loadHistoryEffect parse (initAppState (clearHistory st).storage)).history = [] ∧
    (clearHistory st).inputText = st.inputText ∧
    (clearHistory st).translatedText = st.translatedText ∧
    (clearHistory st).isLoading = st.isLoading ∧
    (clearHistory st).isPlaying = st.isPlaying ∧
    (clearHistory st).playback = st.playback := by
  simp [clearHistory, loadHistoryEffect, initAppState]

/-- C9: when the persisted value under the storage key is present but fails
to parse, the startup load leaves the application state exactly at its
initial value, with the empty history. -/
theorem C9_corrupt_persisted_history_ignored (s : String)
    (parse : String → Option (List TranslationResult)) (h : parse s = none) :
    loadHistoryEffect parse (initAppState (some s)) = initAppState (some s) := by
  simp [loadHistoryEffect, initAppState, h]

/-- Witness for C9 on a concrete unparsable persisted value. -/
theorem C9_corrupt_persisted_history_ignored_witness :
    loadHistoryEffect (fun _ => none) (initAppState (some "not json"))
      = initAppState (some "not json") :=
  C9_corrupt_persisted_history_ignored "not json" (fun _ => none) rfl

/-- C10: speaking empty text is a no-op: the state, the playing flag, the
playback session and the synthesis call count are exactly as before. -/
theorem C10_speak_empty_noop (ext : Collab) (st : AppState) :
    speakText ext "" st = st := by
  simp [speakText]
